import Mathlib

/-!
# vcxapi-js: the request layer of `src/index.js`

A shallow embedding of `createVcxapiClient` and of the functions of its closure.

* JavaScript values are the type `Json` (the JSON values plus `undefined`).
* An `async` function is a state transformer `M α`: it receives the world (the transport
  requests made so far and the records given to the logger so far) and returns either the
  value the promise resolves with or the error it rejects with, next to the new world.
* The HTTP transport (`axios`) is a parameter: any function from the requests made so far
  and the present request to an outcome (resolve with a response, reject with an error).
-/

namespace Vcxapi

/-! ## JavaScript values -/

/-- The JavaScript values the client handles: JSON values and `undefined`. Numbers are the
integers (floating point values are not modelled). An object is the list of its own
properties in enumeration order. -/
inductive Json where
  | null
  | undefined
  | bool (b : Bool)
  | num (n : Int)
  | str (s : String)
  | arr (xs : List Json)
  | obj (fields : List (String × Json))

/-- Concatenation of strings with a separator, as `Array.prototype.join`. -/
def joinWith (sep : String) : List String → String
  | [] => ""
  | [s] => s
  | s :: rest => s ++ sep ++ joinWith sep rest

mutual
/-- The string a value becomes inside a template literal (the `ToString` operation). A
number is written in decimal digits, as JavaScript writes an integer below `1e21`. -/
def toStr : Json → String
  | .null => "null"
  | .undefined => "undefined"
  | .bool b => if b then "true" else "false"
  | .num n => toString n
  | .str s => s
  | .arr xs => joinWith "," (toStrElements xs)
  | .obj _ => "[object Object]"
termination_by structural x => x
/-- The elements of an array as `Array.prototype.join` renders them: `null` and `undefined`
are the empty string. -/
def toStrElements : List Json → List String
  | [] => []
  | .null :: xs => "" :: toStrElements xs
  | .undefined :: xs => "" :: toStrElements xs
  | x :: xs => toStr x :: toStrElements xs
termination_by structural x => x
end

/-- Lower-case hexadecimal digit. -/
def hexDigit (n : Nat) : Char :=
  if n < 10 then Char.ofNat (48 + n) else Char.ofNat (87 + n)

/-- Upper-case hexadecimal digit. -/
def upperHexDigit (n : Nat) : Char :=
  if n < 10 then Char.ofNat (48 + n) else Char.ofNat (55 + n)

/-- The escape of one character inside a JSON string (`QuoteJSONString`). -/
def quoteChar (c : Char) : List Char :=
  if c = Char.ofNat 34 then [Char.ofNat 92, Char.ofNat 34]
  else if c = Char.ofNat 92 then [Char.ofNat 92, Char.ofNat 92]
  else if c = Char.ofNat 8 then [Char.ofNat 92, 'b']
  else if c = Char.ofNat 12 then [Char.ofNat 92, 'f']
  else if c = Char.ofNat 10 then [Char.ofNat 92, 'n']
  else if c = Char.ofNat 13 then [Char.ofNat 92, 'r']
  else if c = Char.ofNat 9 then [Char.ofNat 92, 't']
  else if c.toNat < 32 then
    [Char.ofNat 92, 'u', '0', '0', hexDigit (c.toNat / 16), hexDigit (c.toNat % 16)]
  else [c]

/-- A string as a JSON string literal. -/
def quoteJSONString (s : String) : String :=
  String.mk ([Char.ofNat 34] ++ (s.data.map quoteChar).flatten ++ [Char.ofNat 34])

/-- The text of an array or object from the texts of its parts (`SerializeJSONArray`,
`SerializeJSONObject`): `stepback` is the indentation of the enclosing level. -/
def wrapJSON (opening closing gap stepback : String) (parts : List String) : String :=
  match parts with
  | [] => opening ++ closing
  | _ =>
    if gap = "" then opening ++ joinWith "," parts ++ closing
    else
      opening ++ "\n" ++ (stepback ++ gap) ++ joinWith (",\n" ++ (stepback ++ gap)) parts
        ++ "\n" ++ stepback ++ closing

mutual
/-- The text of a value (`SerializeJSONProperty`); `none` is JavaScript's `undefined`. -/
def serializeJSON (gap indent : String) : Json → Option String
  | .null => some "null"
  | .undefined => none
  | .bool b => some (if b then "true" else "false")
  | .num n => some (toString n)
  | .str s => some (quoteJSONString s)
  | .arr xs => some (wrapJSON "[" "]" gap indent (serializeElements gap (indent ++ gap) xs))
  | .obj fields =>
    some (wrapJSON "\x7b" "\x7d" gap indent (serializeMembers gap (indent ++ gap) fields))
termination_by structural x => x
/-- Array elements: an `undefined` element is written `null`. -/
def serializeElements (gap indent : String) : List Json → List String
  | [] => []
  | x :: xs => (serializeJSON gap indent x).getD "null" :: serializeElements gap indent xs
termination_by structural x => x
/-- Object members: a member whose value is `undefined` is left out. -/
def serializeMembers (gap indent : String) : List (String × Json) → List String
  | [] => []
  | kv :: rest =>
    match serializeMember gap indent kv with
    | none => serializeMembers gap indent rest
    | some s => s :: serializeMembers gap indent rest
termination_by structural x => x
/-- One member, `"key": value`. -/
def serializeMember (gap indent : String) : String × Json → Option String
  | (k, v) =>
    match serializeJSON gap indent v with
    | none => none
    | some s => some (quoteJSONString k ++ (if gap = "" then ":" else ": ") ++ s)
termination_by structural x => x
end

/-- The call `JSON.stringify(value, null, space)`; `space = 0` is `JSON.stringify(value)`. -/
def jsonStringify (value : Json) (space : Nat) : Option String :=
  serializeJSON (String.mk (List.replicate (min space 10) ' ')) "" value

/-- The text of `JSON.stringify(..)` inside a template literal. -/
def stringifyText (value : Json) (space : Nat) : String :=
  (jsonStringify value space).getD "undefined"

/-- The length of a string in UTF-16 code units. -/
def utf16Length (s : String) : Nat :=
  (s.data.map (fun c => if c.toNat < 65536 then 1 else 2)).sum

/-- Truthiness of a value (`ToBoolean`). -/
def truthy : Json → Bool
  | .null => false
  | .undefined => false
  | .bool b => b
  | .num n => n != 0
  | .str s => s != ""
  | .arr _ => true
  | .obj _ => true

/-- Own property of an object; `undefined` when the object has none of that name. -/
def lookupField (name : String) : List (String × Json) → Json
  | [] => Json.undefined
  | (k, v) :: rest => if k = name then v else lookupField name rest

/-- The value of a run of decimal digits; `none` when a character is not a digit. -/
def digitsValue : List Char → Nat → Option Nat
  | [], acc => some acc
  | c :: cs, acc => if c.isDigit then digitsValue cs (10 * acc + (c.toNat - 48)) else none

/-- The number a string stands for (`StringToNumber`), `none` being `NaN`: blank is `0`, a
decimal integer literal with an optional sign is its value. The other numeric literals of
JavaScript (fraction, exponent, radix prefix, `Infinity`) are outside the integers of this
embedding and are read as `NaN`. -/
def stringToNumber (s : String) : Option Int :=
  let isBlank : Char → Bool := fun c => c = ' ' || c.toNat = 9 || c.toNat = 10 || c.toNat = 13
  let body := ((s.data.dropWhile isBlank).reverse.dropWhile isBlank).reverse
  match body with
  | [] => some 0
  | '-' :: d :: ds => (digitsValue (d :: ds) 0).map (fun n => - (n : Int))
  | '+' :: d :: ds => (digitsValue (d :: ds) 0).map (fun n => (n : Int))
  | ds => (digitsValue ds 0).map (fun n => (n : Int))

/-- The number a value is compared as (`ToNumber`), `none` being `NaN`. -/
def toNumber : Json → Option Int
  | .null => some 0
  | .undefined => none
  | .bool b => some (if b then 1 else 0)
  | .num n => some n
  | .str s => stringToNumber s
  | .arr xs => stringToNumber (toStr (.arr xs))
  | .obj _ => none

/-- The comparison `v > k` against a number literal: false when `v` is `NaN`. -/
def jsGt (v : Json) (k : Int) : Bool :=
  match toNumber v with
  | some n => decide (k < n)
  | none => false

/-- The comparison `v < k` against a number literal: false when `v` is `NaN`. -/
def jsLt (v : Json) (k : Int) : Bool :=
  match toNumber v with
  | some n => decide (n < k)
  | none => false

/-! ## Errors, responses and the transport -/

/-- A response of the remote service as `axios` presents it. -/
structure Response where
  status : Nat
  data : Json

/-- A thrown error object: its name, its message and, for an error of `axios` that comes
with an HTTP response, that response (`err.response`); a transport-level failure (no
answer from the network) has none. -/
structure JsError where
  name : String
  message : String
  response : Option Response

/-- The error `Error(message)`. -/
def mkError (message : String) : JsError :=
  ⟨"Error", message, none⟩

/-- The `TypeError` of reading a property of `null` or `undefined`. -/
def typeErrorRead (base prop : String) : JsError :=
  ⟨"TypeError", "Cannot read properties of " ++ base ++ " (reading '" ++ prop ++ "')", none⟩

/-- The `TypeError` of calling what is not a function. -/
def typeErrorCall (callee : String) : JsError :=
  ⟨"TypeError", callee ++ " is not a function", none⟩

/-- The property read `v.name`, for the property names the client reads (`length` and the
fields of response bodies). -/
def getProp (v : Json) (name : String) : Except JsError Json :=
  match v with
  | .null => .error (typeErrorRead "null" name)
  | .undefined => .error (typeErrorRead "undefined" name)
  | .obj fields => .ok (lookupField name fields)
  | .arr xs => .ok (if name = "length" then .num xs.length else .undefined)
  | .str s => .ok (if name = "length" then .num (utf16Length s) else .undefined)
  | .bool _ => .ok .undefined
  | .num _ => .ok .undefined

/-- The `TypeError` of destructuring `null` or `undefined`. -/
def typeErrorDestructure (base prop : String) : JsError :=
  ⟨"TypeError", "Cannot destructure property '" ++ prop ++ "' of '(intermediate value)' as it is "
    ++ base ++ ".", none⟩

/-- The property a destructuring pattern binds: as `getProp`, with the error of a
destructuring when the value is `null` or `undefined`. -/
def destructureProp (v : Json) (name : String) : Except JsError Json :=
  match v with
  | .null => .error (typeErrorDestructure "null" name)
  | .undefined => .error (typeErrorDestructure "undefined" name)
  | w => getProp w name

/-- The UTF-16 code units of a string, each as the character it is alone; a half of a
surrogate pair, which no Lean string holds, is written U+FFFD. -/
def utf16Units (s : String) : List Char :=
  (s.data.map (fun c =>
    if c.toNat < 65536 then [c] else [Char.ofNat 65533, Char.ofNat 65533])).flatten

/-- The indexed read `v[i]`. -/
def getIndex (v : Json) (i : Nat) : Except JsError Json :=
  match v with
  | .null => .error (typeErrorRead "null" (toString i))
  | .undefined => .error (typeErrorRead "undefined" (toString i))
  | .obj fields => .ok (lookupField (toString i) fields)
  | .arr xs => .ok (xs.getD i .undefined)
  | .str s =>
    match (utf16Units s).get? i with
    | some c => .ok (.str (String.singleton c))
    | none => .ok .undefined
  | .bool _ => .ok .undefined
  | .num _ => .ok .undefined

/-- The HTTP verbs of the client. -/
inductive Verb where
  | GET
  | POST
  | PUT
  | DELETE
  deriving DecidableEq, Repr

/-- One call of `axios`: `axios.get(url, cfg)`, `axios.post(url, data, cfg)`,
`axios.put(url, data, cfg)` or `axios.delete(url, cfg)` with `cfg` the object of the one
property `auth`. `data` is `none` for the verbs that take no body argument. -/
structure Request where
  method : Verb
  url : String
  data : Option Json
  auth : Json

/-- How a call of `axios` ends: the promise resolves with a response, or rejects. -/
inductive Outcome where
  | resolve (res : Response)
  | reject (err : JsError)

/-- The transport: the outcome of a request, which may depend on the requests before it. -/
abbrev Transport := List Request → Request → Outcome

/-- Severity of a record given to the logger. -/
inductive Level where
  | debug
  | warn
  | error
  deriving DecidableEq, Repr

/-- A record given to the logger: `logger.debug(text)`, `logger.warn(text)` or
`logger.error(text)`. -/
structure LogRecord where
  level : Level
  text : String
  deriving DecidableEq, Repr

/-- What a call leaves behind: the requests given to the transport and the records given to
the logger, oldest first. -/
structure World where
  requests : List Request
  logs : List LogRecord

/-- An `async` function: from the world to a settled promise and the world after it. -/
def M (α : Type) : Type := World → Except JsError α × World

/-- A promise resolved with `a`. -/
def M.pure {α : Type} (a : α) : M α := fun w => (.ok a, w)

/-- Sequencing on `await`: a rejection skips the rest. -/
def M.bind {α β : Type} (m : M α) (f : α → M β) : M β := fun w =>
  match m w with
  | (.ok a, w1) => f a w1
  | (.error e, w1) => (.error e, w1)

/-- The statement `throw e`. -/
def M.throw {α : Type} (e : JsError) : M α := fun w => (.error e, w)

/-- The statement `try body catch (err) handler`. -/
def M.tryCatch {α : Type} (body : M α) (handler : JsError → M α) : M α := fun w =>
  match body w with
  | (.ok a, w1) => (.ok a, w1)
  | (.error e, w1) => handler e w1

instance : Monad M where
  pure := M.pure
  bind := M.bind

instance : MonadExcept JsError M where
  throw := M.throw
  tryCatch := M.tryCatch

/-- A synchronous step that may throw. -/
def liftExcept {α : Type} : Except JsError α → M α
  | .ok a => M.pure a
  | .error e => M.throw e

/-- The call `logger.debug`, `logger.warn` or `logger.error`. -/
def logAt (level : Level) (text : String) : M Unit := fun w =>
  (.ok (), { w with logs := w.logs ++ [⟨level, text⟩] })

/-- The awaited call of `axios`: the request is recorded and its outcome is the transport's. -/
def callAxios (axios : Transport) (r : Request) : M Response := fun w =>
  match axios w.requests r with
  | .resolve res => (.ok res, { w with requests := w.requests ++ [r] })
  | .reject err => (.error err, { w with requests := w.requests ++ [r] })

/-! ## The closure of `createVcxapiClient` -/

/-- What the functions of the closure see: the imported transport and the three arguments
of `createVcxapiClient`. `logger` tells whether a logger object was given. -/
structure Ctx where
  axios : Transport
  baseUrl : Json
  auth : Json
  logger : Bool

/-- The read `err.response` followed by a property read on it, which throws a `TypeError`
when the error has no response. -/
def errResponse (err : JsError) (prop : String) : Except JsError Response :=
  match err.response with
  | some r => .ok r
  | none => .error (typeErrorRead "undefined" prop)

/-- The text of a failed call in the log. -/
def failureText (verb url : String) (response : Response) : String :=
  "[Response] [" ++ verb ++ "] " ++ url ++ " \n Failed with Status code: "
    ++ toString response.status ++ " \nResponse body: " ++ stringifyText response.data 2

/-- Source: `getRequest` (lines 9-31). -/
def getRequest (c : Ctx) (url : String) : M Json := do
  if c.logger then
    logAt .debug ("[Request] [GET] " ++ url)
  let res ← tryCatch (callAxios c.axios ⟨.GET, url, none, c.auth⟩) (fun err => do
    if c.logger then
      let response ← liftExcept (errResponse err "status")
      let messageText := failureText "GET" url response
      if response.status = 404 then
        logAt .warn messageText
      else
        logAt .error messageText
    throw err)
  if c.logger then
    logAt .debug ("[GET] " ++ url ++ " \n Status code: " ++ toString res.status
      ++ " \nResponse body: " ++ stringifyText res.data 2)
  return res.data

/-- Source: `postRequest` (lines 33-50). -/
def postRequest (c : Ctx) (url : String) (payload : Json) : M Json := do
  if c.logger then
    logAt .debug ("[Request] [POST] " ++ url ++ "\n Request body: " ++ stringifyText payload 2)
  let res ← tryCatch (callAxios c.axios ⟨.POST, url, some payload, c.auth⟩) (fun err => do
    if c.logger then
      let response ← liftExcept (errResponse err "status")
      logAt .error (failureText "POST" url response)
    throw err)
  if c.logger then
    logAt .debug ("[Response] [POST] " ++ url ++ " \n Status code: " ++ toString res.status
      ++ " \nResponse body: " ++ stringifyText res.data 2)
  return res.data

/-- Source: `putRequest` (lines 52-69). -/
def putRequest (c : Ctx) (url : String) (payload : Json) : M Json := do
  if c.logger then
    logAt .debug ("[Request] [PUT] " ++ url ++ "\n Request body: " ++ stringifyText payload 2)
  let res ← tryCatch (callAxios c.axios ⟨.PUT, url, some payload, c.auth⟩) (fun err => do
    if c.logger then
      let response ← liftExcept (errResponse err "status")
      logAt .error (failureText "PUT" url response)
    throw err)
  if c.logger then
    logAt .debug ("[Response] [PUT] " ++ url ++ " \n Status code: " ++ toString res.status
      ++ " \nResponse body: " ++ stringifyText res.data 2)
  return res.data

/-- Source: `deleteRequest` (lines 71-88). -/
def deleteRequest (c : Ctx) (url : String) : M Json := do
  if c.logger then
    logAt .debug ("[Request] [DELETE] " ++ url)
  let res ← tryCatch (callAxios c.axios ⟨.DELETE, url, none, c.auth⟩) (fun err => do
    if c.logger then
      let response ← liftExcept (errResponse err "status")
      logAt .error (failureText "DELETE" url response)
    throw err)
  if c.logger then
    logAt .debug ("[Response] [DELETE] " ++ url ++ " \n Status code: " ++ toString res.status
      ++ " \nResponse body: " ++ stringifyText res.data 2)
  return res.data

/-- Source: `returnNullFor404` (lines 90-99). The argument is the zero-argument `async`
function; running it is calling it. -/
def returnNullFor404 (axiosCallableReturningResponseData : M Json) : M Json :=
  tryCatch (do
    let data ← axiosCallableReturningResponseData
    return data) (fun err => do
    let response ← liftExcept (errResponse err "status")
    if response.status = 404 then
      return Json.null
    else throw err)

/-! ### Connections -/

/-- Source: `createConnection` (lines 103-105); `postRequest` gets no payload. -/
def createConnection (c : Ctx) (connectionId : Json) : M Json :=
  postRequest c (toStr c.baseUrl ++ "/api/connections/" ++ toStr connectionId) .undefined

/-- Source: `getConnectionInvite` (lines 107-111); `abbr` defaults to `true`. -/
def getConnectionInvite (c : Ctx) (connectionId abbr : Json) : M Json := do
  let abbr := match abbr with
    | .undefined => Json.bool true
    | v => v
  let qs := "?abbr=" ++ toStr abbr
  let data ← getRequest c
    (toStr c.baseUrl ++ "/api/connections/" ++ toStr connectionId ++ "/invite" ++ qs)
  let invitationString ← liftExcept (destructureProp data "invitationString")
  return invitationString

/-- Source: `getConnections` (lines 113-115). -/
def getConnections (c : Ctx) : M Json :=
  getRequest c (toStr c.baseUrl ++ "/api/connections")

/-- Source: `getConnectionIdByTheirPwDid` (lines 117-124). -/
def getConnectionIdByTheirPwDid (c : Ctx) (theirPwDid : Json) : M Json := do
  let qs := "?theirPwDid=" ++ toStr theirPwDid
  let data ← getRequest c (toStr c.baseUrl ++ "/api/connections" ++ qs)
  let length ← liftExcept (getProp data "length")
  if jsGt length 1 then
    throw (mkError ("More than 1 connection with theirPwDid=" ++ toStr theirPwDid
      ++ " found. This is VCXS server bug."))
  return data

/-- Source: `getConnection` (lines 126-131). -/
def getConnection (c : Ctx) (connectionId : Json) : M Json :=
  let axiosCall : M Json :=
    getRequest c (toStr c.baseUrl ++ "/api/connections/" ++ toStr connectionId)
  returnNullFor404 axiosCall

/-- Source: `deleteConnection` (lines 133-135). -/
def deleteConnection (c : Ctx) (connectionId : Json) : M Json :=
  deleteRequest c (toStr c.baseUrl ++ "/api/connections/" ++ toStr connectionId)

/-! ### Challenges and signatures -/

/-- Source: `createChallenge` (lines 138-141). -/
def createChallenge (c : Ctx) (connectionId challengeId : Json) : M Json := do
  let data ← postRequest c (toStr c.baseUrl ++ "/api/connections/" ++ toStr connectionId
    ++ "/challenges/" ++ toStr challengeId) .undefined
  liftExcept (getProp data "challengeBase64")

/-- Source: `submitChallengeSolution` (lines 143-147). -/
def submitChallengeSolution (c : Ctx) (connectionId challengeId signatureBase64 : Json) :
    M Json := do
  let target := toStr c.baseUrl ++ "/api/connections/" ++ toStr connectionId
    ++ "/challenges/" ++ toStr challengeId ++ "/solution"
  let data ← postRequest c target (.obj [("signatureBase64", signatureBase64)])
  liftExcept (getProp data "success")

/-- Source: `getSignedData` (lines 149-152). -/
def getSignedData (c : Ctx) (connectionId stringToSign : Json) : M Json := do
  let body ← getRequest c (toStr c.baseUrl ++ "/api/connections/" ++ toStr connectionId
    ++ "/sign/" ++ toStr stringToSign)
  let data ← liftExcept (destructureProp body "data")
  let signature ← liftExcept (destructureProp body "signature")
  return .obj [("data", data), ("signature", signature)]

/-! ### Schemas -/

/-- The payload of `createSchema`. -/
def createSchemaPayload (schemaName schemaVersion attributes : Json) : Json :=
  .obj [("schemaName", schemaName), ("schemaVersion", schemaVersion),
    ("attributes", attributes), ("method", .str "create")]

/-- The payload of `loadSchema`. -/
def loadSchemaPayload (attributes schemaLedgerId : Json) : Json :=
  .obj [("attributes", attributes), ("schemaLedgerId", schemaLedgerId),
    ("method", .str "load")]

/-- Source: `createSchema` (lines 159-166). -/
def createSchema (c : Ctx) (schemaId schemaName schemaVersion attributes : Json) : M Json :=
  postRequest c (toStr c.baseUrl ++ "/api/schemas/" ++ toStr schemaId)
    (createSchemaPayload schemaName schemaVersion attributes)

/-- Source: `loadSchema` (lines 171-177). -/
def loadSchema (c : Ctx) (schemaId attributes schemaLedgerId : Json) : M Json :=
  postRequest c (toStr c.baseUrl ++ "/api/schemas/" ++ toStr schemaId)
    (loadSchemaPayload attributes schemaLedgerId)

/-- Source: `getSchemas` (lines 179-181). -/
def getSchemas (c : Ctx) : M Json :=
  getRequest c (toStr c.baseUrl ++ "/api/schemas")

/-- Source: `getSchemaById` (lines 183-188). -/
def getSchemaById (c : Ctx) (schemaId : Json) : M Json :=
  let axiosCall : M Json :=
    getRequest c (toStr c.baseUrl ++ "/api/schemas?selection="
      ++ stringifyText (.obj [("schemaId", schemaId)]) 0)
  returnNullFor404 axiosCall

/-- Source: `getSchemaByLedgerId` (lines 190-195). -/
def getSchemaByLedgerId (c : Ctx) (schemaLedgerId : Json) : M Json :=
  let axiosCall : M Json :=
    getRequest c (toStr c.baseUrl ++ "/api/schemas?selection="
      ++ stringifyText (.obj [("schemaLedgerId", schemaLedgerId)]) 0)
  returnNullFor404 axiosCall

/-- Source: `deleteSchema` (lines 197-199). -/
def deleteSchema (c : Ctx) (id : Json) : M Json :=
  deleteRequest c (toStr c.baseUrl ++ "/api/schemas/" ++ toStr id)

/-! ### Credential definitions -/

/-- Source: `createCredDef` (lines 202-204). -/
def createCredDef (c : Ctx) (schemaId credDefId credDefName : Json) : M Json :=
  postRequest c (toStr c.baseUrl ++ "/api/credential-defs/" ++ toStr credDefId)
    (.obj [("schemaId", schemaId), ("credDefName", credDefName)])

/-- Source: `getCredDefs` (lines 206-208). -/
def getCredDefs (c : Ctx) : M Json :=
  getRequest c (toStr c.baseUrl ++ "/api/credential-defs")

/-- Source: `getCredDef` (lines 210-215). -/
def getCredDef (c : Ctx) (credDefId : Json) : M Json :=
  let axiosCall : M Json :=
    getRequest c (toStr c.baseUrl ++ "/api/credential-defs/" ++ toStr credDefId)
  returnNullFor404 axiosCall

/-- Source: `deleteCredDef` (lines 217-219). -/
def deleteCredDef (c : Ctx) (credDefId : Json) : M Json :=
  deleteRequest c (toStr c.baseUrl ++ "/api/credential-defs/" ++ toStr credDefId)

/-! ### Credentials -/

/-- Source: `sendCredentialByConnection` (lines 222-228). -/
def sendCredentialByConnection (c : Ctx)
    (credentialId connectionId credDefId values credentialName : Json) : M Json := do
  let data ← postRequest c
    (toStr c.baseUrl ++ "/api/connections/" ++ toStr connectionId ++ "/credentials/"
      ++ toStr credentialId)
    (.obj [("credDefId", credDefId), ("values", values), ("credentialName", credentialName)])
  liftExcept (getProp data "id")

/-- Source: `sendCredentialByTheirPwDid` (lines 230-237). The second operand of `||` is
evaluated only when the first is false. -/
def sendCredentialByTheirPwDid (c : Ctx)
    (credentialId theirPwDid credDefId values credentialName : Json) : M Json := do
  let connections ← getConnectionIdByTheirPwDid c theirPwDid
  let noConnection ←
    if !truthy connections then pure true
    else do
      let length ← liftExcept (getProp connections "length")
      pure (jsLt length 1)
  if noConnection then
    throw (mkError ("No connection was found by theirPwDid=" ++ toStr theirPwDid))
  let first ← liftExcept (getIndex connections 0)
  let connectionId ← liftExcept (getProp first "id")
  sendCredentialByConnection c credentialId connectionId credDefId values credentialName

/-- Source: `getCredentials` (lines 239-241). -/
def getCredentials (c : Ctx) : M Json :=
  getRequest c (toStr c.baseUrl ++ "/api/credentials")

/-- Source: `getCredential` (lines 243-248). -/
def getCredential (c : Ctx) (credentialId : Json) : M Json :=
  let axiosCall : M Json :=
    getRequest c (toStr c.baseUrl ++ "/api/credentials/" ++ toStr credentialId)
  returnNullFor404 axiosCall

/-- Source: `deleteCredential` (lines 250-252). -/
def deleteCredential (c : Ctx) (credentialId : Json) : M Json :=
  deleteRequest c (toStr c.baseUrl ++ "/api/credentials/" ++ toStr credentialId)

/-! ### Proofs -/

/-- Source: `sendProofRequest` (lines 255-258). -/
def sendProofRequest (c : Ctx) (connectionId attributes name : Json) : M Json := do
  let body ← postRequest c
    (toStr c.baseUrl ++ "/api/connections/" ++ toStr connectionId ++ "/proofs")
    (.obj [("attributes", attributes), ("name", name)])
  let id ← liftExcept (destructureProp body "id")
  return id

/-- Source: `getProof` (lines 260-265). -/
def getProof (c : Ctx) (proofId : Json) : M Json :=
  let axiosCall : M Json :=
    getRequest c (toStr c.baseUrl ++ "/api/proofs/" ++ toStr proofId)
  returnNullFor404 axiosCall

/-- Source: `getProofs` (lines 267-269). -/
def getProofs (c : Ctx) : M Json :=
  getRequest c (toStr c.baseUrl ++ "/api/proofs")

/-- Source: `deleteProof` (lines 271-273). -/
def deleteProof (c : Ctx) (proofId : Json) : M Json :=
  deleteRequest c (toStr c.baseUrl ++ "/api/proofs/" ++ toStr proofId)

/-! ### Messages -/

/-- The UTF-8 bytes of a character. -/
def utf8Bytes (c : Char) : List Nat :=
  let n := c.toNat
  if n < 128 then [n]
  else if n < 2048 then [192 + n / 64, 128 + n % 64]
  else if n < 65536 then [224 + n / 4096, 128 + n / 64 % 64, 128 + n % 64]
  else [240 + n / 262144, 128 + n / 4096 % 64, 128 + n / 64 % 64, 128 + n % 64]

/-- The characters no percent-encoding touches: letters, digits, `-`, `_`, `.`, `~`. -/
def isUnreserved (c : Char) : Bool :=
  c.isAlphanum || c = '-' || c = '_' || c = '.' || c = '~'

/-- Percent-encoding of one character. -/
def encodeChar (c : Char) : List Char :=
  if isUnreserved c then [c]
  else ((utf8Bytes c).map (fun b => ['%', upperHexDigit (b / 16), upperHexDigit (b % 16)])).flatten

/-- Modelled from the spec: the `query-string` package is a dependency whose source is not
in the repository. This is its encoder for keys and values (the default options `encode`
and `strict`): `encodeURIComponent` with `!`, the apostrophe, `(`, `)` and `*` encoded too,
so that only letters, digits, `-`, `_`, `.` and `~` stay as they are. -/
def strictUriEncode (s : String) : String :=
  String.mk ((s.data.map encodeChar).flatten)

/-- Modelled from the spec: the `bracket` array format of `query-string`, one element of an
array under `key`. An `undefined` element gives nothing, a `null` element the bare `key[]`,
any other element the pair `key[]=value`. -/
def bracketElement (key : String) : Json → Option String
  | .undefined => none
  | .null => some (strictUriEncode key ++ "[]")
  | v => some (strictUriEncode key ++ "[]=" ++ strictUriEncode (toStr v))

/-- Modelled from the spec: what `qs.stringify` writes for one key of the object. -/
def stringifyKey (kv : String × Json) : String :=
  match kv.2 with
  | .undefined => ""
  | .null => strictUriEncode kv.1
  | .arr xs => joinWith "&" (xs.filterMap (bracketElement kv.1))
  | v => strictUriEncode kv.1 ++ "=" ++ strictUriEncode (toStr v)

/-- Insertion of a property into a list sorted by key; keys are compared character by
character, as `Array.prototype.sort` without a comparator compares them. -/
def insertByKey (kv : String × Json) : List (String × Json) → List (String × Json)
  | [] => [kv]
  | x :: rest => if kv.1.data < x.1.data then kv :: x :: rest else x :: insertByKey kv rest

/-- Modelled from the spec: `qs.stringify` with the array format `bracket` of the
`query-string` package, whose source is not in the repository. The keys are taken in sorted
order (the package's default), each is written by `stringifyKey`, the empty results are
dropped and the rest is joined by `&`. -/
def qsStringify (object : List (String × Json)) : String :=
  joinWith "&" (((object.foldr insertByKey []).map stringifyKey).filter (fun x => x.length > 0))

/-- Source: `sendMessage` (lines 276-278). -/
def sendMessage (c : Ctx) (connectionId msg type title : Json) : M Json :=
  postRequest c (toStr c.baseUrl ++ "/api/connections/" ++ toStr connectionId ++ "/messages")
    (.obj [("msg", msg), ("type", type), ("title", title)])

/-- Source: `getMessages` (lines 280-282). -/
def getMessages (c : Ctx) (connectionId types statuses : Json) : M Json :=
  getRequest c (toStr c.baseUrl ++ "/api/connections/" ++ toStr connectionId ++ "/messages?"
    ++ qsStringify [("types", types), ("statuses", statuses)])

/-- Source: `updateMessages` (lines 284-286). -/
def updateMessages (c : Ctx) (connectionId uids : Json) : M Json :=
  putRequest c (toStr c.baseUrl ++ "/api/connections/" ++ toStr connectionId ++ "/messages")
    (.obj [("uids", uids)])

/-! ### The client object -/

/-- A function of the client object: it takes the list of its arguments. -/
abbrev JsFunction := List Json → M Json

/-- The `i`-th argument of a call; an argument not given is `undefined`. -/
def arg (args : List Json) (i : Nat) : Json :=
  args.getD i .undefined

/-- Source: the object returned by `createVcxapiClient` (lines 288-325): its properties, in
the order of the object literal, each with the function of the closure it names. -/
def clientObject (c : Ctx) : List (String × JsFunction) :=
  [ ("createConnection", fun a => createConnection c (arg a 0)),
    ("getConnectionInvite", fun a => getConnectionInvite c (arg a 0) (arg a 1)),
    ("getConnections", fun _ => getConnections c),
    ("getConnection", fun a => getConnection c (arg a 0)),
    ("deleteConnection", fun a => deleteConnection c (arg a 0)),
    ("createChallenge", fun a => createChallenge c (arg a 0) (arg a 1)),
    ("getSignedData", fun a => getSignedData c (arg a 0) (arg a 1)),
    ("submitChallengeSolution", fun a => submitChallengeSolution c (arg a 0) (arg a 1) (arg a 2)),
    ("createSchema", fun a => createSchema c (arg a 0) (arg a 1) (arg a 2) (arg a 3)),
    ("loadSchema", fun a => loadSchema c (arg a 0) (arg a 1) (arg a 2)),
    ("getSchemaById", fun a => getSchemaById c (arg a 0)),
    ("getSchemaByLedgerId", fun a => getSchemaByLedgerId c (arg a 0)),
    ("getSchemas", fun _ => getSchemas c),
    ("deleteSchema", fun a => deleteSchema c (arg a 0)),
    ("createCredDef", fun a => createCredDef c (arg a 0) (arg a 1) (arg a 2)),
    ("getCredDef", fun a => getCredDef c (arg a 0)),
    ("getCredDefs", fun _ => getCredDefs c),
    ("deleteCredDef", fun a => deleteCredDef c (arg a 0)),
    ("sendCredentialByConnection", fun a =>
      sendCredentialByConnection c (arg a 0) (arg a 1) (arg a 2) (arg a 3) (arg a 4)),
    ("sendCredentialByTheirPwDid", fun a =>
      sendCredentialByTheirPwDid c (arg a 0) (arg a 1) (arg a 2) (arg a 3) (arg a 4)),
    ("getCredentials", fun _ => getCredentials c),
    ("getCredential", fun a => getCredential c (arg a 0)),
    ("deleteCredential", fun a => deleteCredential c (arg a 0)),
    ("sendProofRequest", fun a => sendProofRequest c (arg a 0) (arg a 1) (arg a 2)),
    ("getProof", fun a => getProof c (arg a 0)),
    ("getProofs", fun _ => getProofs c),
    ("deleteProof", fun a => deleteProof c (arg a 0)),
    ("sendMessage", fun a => sendMessage c (arg a 0) (arg a 1) (arg a 2) (arg a 3)),
    ("getMessages", fun a => getMessages c (arg a 0) (arg a 1) (arg a 2)),
    ("updateMessages", fun a => updateMessages c (arg a 0) (arg a 1)) ]

/-- Source: `createVcxapiClient` (lines 4-7 and 288-325). `auth` defaults to `null`; the
logger is given or not. -/
def createVcxapiClient (axios : Transport) (baseUrl auth : Json) (logger : Bool) :
    Except JsError (List (String × JsFunction)) :=
  let auth := match auth with
    | .undefined => Json.null
    | v => v
  match baseUrl with
  | .null => .error (mkError "baseUrl is not defined!")
  | .undefined => .error (mkError "baseUrl is not defined!")
  | _ => .ok (clientObject ⟨axios, baseUrl, auth, logger⟩)

/-- The property names of an object. -/
def objectKeys (client : List (String × JsFunction)) : List String :=
  client.map Prod.fst

/-- The property read `client.name`; `none` is `undefined`. -/
def clientProp (client : List (String × JsFunction)) (name : String) : Option JsFunction :=
  (client.find? (fun kv => kv.1 = name)).map Prod.snd

/-- The method call `client.name(...args)`: a `TypeError` when the client has no such
property. -/
def callMethod (client : List (String × JsFunction)) (name : String) (args : List Json) :
    M Json :=
  match clientProp client name with
  | some f => f args
  | none => M.throw (typeErrorCall ("client." ++ name))

/-! ## Vocabulary of the statements -/

/-- The four verbs of the request executor as one function: the verb picks the source
function; `payload` is used by `POST` and `PUT` only. -/
def executor (c : Ctx) (verb : Verb) (url : String) (payload : Json) : M Json :=
  match verb with
  | .GET => getRequest c url
  | .POST => postRequest c url payload
  | .PUT => putRequest c url payload
  | .DELETE => deleteRequest c url

/-- The transport request with the given verb, address and payload and the configured
`auth`. -/
def requestOf (c : Ctx) (verb : Verb) (url : String) (payload : Json) : Request :=
  match verb with
  | .GET => ⟨.GET, url, none, c.auth⟩
  | .POST => ⟨.POST, url, some payload, c.auth⟩
  | .PUT => ⟨.PUT, url, some payload, c.auth⟩
  | .DELETE => ⟨.DELETE, url, none, c.auth⟩

/-- The records a call gave to the logger: the log after the call without the log before. -/
def emitted (before after : World) : List LogRecord :=
  after.logs.drop before.logs.length

/-- The number of records of a severity. -/
def countLevel (level : Level) (records : List LogRecord) : Nat :=
  (records.filter (fun r => r.level = level)).length

/-- The severity `getRequest` logs a failed call at. -/
def getFailureLevel (status : Nat) : Level :=
  if status = 404 then .warn else .error

/-- The six single-entity lookups. -/
inductive Lookup where
  | getConnection
  | getSchemaById
  | getSchemaByLedgerId
  | getCredDef
  | getCredential
  | getProof
  deriving DecidableEq, Repr

/-- The source function of a lookup. -/
def Lookup.run (c : Ctx) (l : Lookup) (id : Json) : M Json :=
  match l with
  | .getConnection => Vcxapi.getConnection c id
  | .getSchemaById => Vcxapi.getSchemaById c id
  | .getSchemaByLedgerId => Vcxapi.getSchemaByLedgerId c id
  | .getCredDef => Vcxapi.getCredDef c id
  | .getCredential => Vcxapi.getCredential c id
  | .getProof => Vcxapi.getProof c id

/-- The address a lookup fetches. -/
def Lookup.url (c : Ctx) (l : Lookup) (id : Json) : String :=
  match l with
  | .getConnection => toStr c.baseUrl ++ "/api/connections/" ++ toStr id
  | .getSchemaById =>
    toStr c.baseUrl ++ "/api/schemas?selection=" ++ stringifyText (.obj [("schemaId", id)]) 0
  | .getSchemaByLedgerId =>
    toStr c.baseUrl ++ "/api/schemas?selection="
      ++ stringifyText (.obj [("schemaLedgerId", id)]) 0
  | .getCredDef => toStr c.baseUrl ++ "/api/credential-defs/" ++ toStr id
  | .getCredential => toStr c.baseUrl ++ "/api/credentials/" ++ toStr id
  | .getProof => toStr c.baseUrl ++ "/api/proofs/" ++ toStr id

/-! ## Concrete backends for the examples -/

/-- A world in which nothing has happened yet. -/
def emptyWorld : World := ⟨[], []⟩

/-- The error of `axios` for the answer 404 with the given body. -/
def notFoundError (body : Json) : JsError :=
  ⟨"Error", "Request failed with status code 404", some ⟨404, body⟩⟩

/-- The error of `axios` for the answer 500 with the given body. -/
def serverError (body : Json) : JsError :=
  ⟨"Error", "Request failed with status code 500", some ⟨500, body⟩⟩

/-- The error of `axios` when the network gives no answer: it has no `response`. -/
def networkError : JsError :=
  ⟨"Error", "Network Error", none⟩

/-- A backend that rejects every request with the same error. -/
def rejectingBackend (err : JsError) : Transport :=
  fun _ _ => .reject err

/-- A backend that answers every request with status 200 and the same body. -/
def resolvingBackend (body : Json) : Transport :=
  fun _ _ => .resolve ⟨200, body⟩

/-- A backend that answers a fetch with the list of connections and any other request with
the body `created`. -/
def connectionsBackend (connections : List Json) (created : Json) : Transport :=
  fun _ r =>
    match r.method with
    | .GET => .resolve ⟨200, .arr connections⟩
    | _ => .resolve ⟨200, created⟩

/-- A closure over the given backend, with the base address `http://vcx` and no `auth`. -/
def demoCtx (backend : Transport) (logger : Bool) : Ctx :=
  ⟨backend, .str "http://vcx", .null, logger⟩

/-- The exposed surface as the specification lists it (section 6), each operation by the
name of its source function: connections (create, get invitation, list, lookup by peer
identifier, get by id or null, delete), challenges and signatures, schemas, credential
definitions, credentials, proofs, messages. -/
def specifiedSurface : List String :=
  [ "createConnection", "getConnectionInvite", "getConnections",
    "getConnectionIdByTheirPwDid", "getConnection", "deleteConnection",
    "createChallenge", "submitChallengeSolution", "getSignedData",
    "createSchema", "loadSchema", "getSchemas", "getSchemaById", "getSchemaByLedgerId",
    "deleteSchema",
    "createCredDef", "getCredDefs", "getCredDef", "deleteCredDef",
    "sendCredentialByConnection", "sendCredentialByTheirPwDid", "getCredentials",
    "getCredential", "deleteCredential",
    "sendProofRequest", "getProof", "getProofs", "deleteProof",
    "sendMessage", "getMessages", "updateMessages" ]

/-! # Theorems -/

/-! ## The request executor, case by case -/

theorem getRequest_resolve (c : Ctx) (url : String) (w : World) (res : Response)
    (h : c.axios w.requests ⟨.GET, url, none, c.auth⟩ = .resolve res) :
    getRequest c url w = (.ok res.data, ⟨w.requests ++ [⟨.GET, url, none, c.auth⟩],
      w.logs ++ (if c.logger then [⟨.debug, "[Request] [GET] " ++ url⟩,
        ⟨.debug, "[GET] " ++ url ++ " \n Status code: " ++ toString res.status
          ++ " \nResponse body: " ++ stringifyText res.data 2⟩] else [])⟩) := by
  cases hl : c.logger <;>
    simp [getRequest, hl, bind, M.bind, tryCatch, tryCatchThe, MonadExcept.tryCatch,
      M.tryCatch, callAxios, h, logAt, pure, M.pure]

theorem getRequest_reject_some (c : Ctx) (url : String) (w : World) (e : JsError)
    (r : Response) (h : c.axios w.requests ⟨.GET, url, none, c.auth⟩ = .reject e)
    (hr : e.response = some r) :
    getRequest c url w = (.error e, ⟨w.requests ++ [⟨.GET, url, none, c.auth⟩],
      w.logs ++ (if c.logger then [⟨.debug, "[Request] [GET] " ++ url⟩,
        ⟨getFailureLevel r.status, failureText "GET" url r⟩] else [])⟩) := by
  cases hl : c.logger <;> by_cases hs : r.status = 404 <;>
    simp [getRequest, hl, bind, M.bind, tryCatch, tryCatchThe, MonadExcept.tryCatch,
      M.tryCatch, callAxios, h, logAt, pure, M.pure, throw, throwThe, MonadExcept.throw,
      M.throw, liftExcept, errResponse, hr, hs, getFailureLevel]

theorem getRequest_reject_none (c : Ctx) (url : String) (w : World) (e : JsError)
    (h : c.axios w.requests ⟨.GET, url, none, c.auth⟩ = .reject e)
    (hr : e.response = none) :
    getRequest c url w =
      (.error (if c.logger then typeErrorRead "undefined" "status" else e),
        ⟨w.requests ++ [⟨.GET, url, none, c.auth⟩],
          w.logs ++ (if c.logger then [⟨.debug, "[Request] [GET] " ++ url⟩] else [])⟩) := by
  cases hl : c.logger <;>
    simp [getRequest, hl, bind, M.bind, tryCatch, tryCatchThe, MonadExcept.tryCatch,
      M.tryCatch, callAxios, h, logAt, pure, M.pure, throw, throwThe, MonadExcept.throw,
      M.throw, liftExcept, errResponse, hr]

theorem postRequest_resolve (c : Ctx) (url : String) (payload : Json) (w : World)
    (res : Response)
    (h : c.axios w.requests ⟨.POST, url, some payload, c.auth⟩ = .resolve res) :
    postRequest c url payload w =
      (.ok res.data, ⟨w.requests ++ [⟨.POST, url, some payload, c.auth⟩],
        w.logs ++ (if c.logger then
          [⟨.debug, "[Request] [POST] " ++ url ++ "\n Request body: " ++ stringifyText payload 2⟩,
            ⟨.debug, "[Response] [POST] " ++ url ++ " \n Status code: " ++ toString res.status
              ++ " \nResponse body: " ++ stringifyText res.data 2⟩] else [])⟩) := by
  cases hl : c.logger <;>
    simp [postRequest, hl, bind, M.bind, tryCatch, tryCatchThe, MonadExcept.tryCatch,
      M.tryCatch, callAxios, h, logAt, pure, M.pure]

theorem postRequest_reject_some (c : Ctx) (url : String) (payload : Json) (w : World)
    (e : JsError) (r : Response)
    (h : c.axios w.requests ⟨.POST, url, some payload, c.auth⟩ = .reject e)
    (hr : e.response = some r) :
    postRequest c url payload w =
      (.error e, ⟨w.requests ++ [⟨.POST, url, some payload, c.auth⟩],
        w.logs ++ (if c.logger then
          [⟨.debug, "[Request] [POST] " ++ url ++ "\n Request body: " ++ stringifyText payload 2⟩,
            ⟨.error, failureText "POST" url r⟩] else [])⟩) := by
  cases hl : c.logger <;>
    simp [postRequest, hl, bind, M.bind, tryCatch, tryCatchThe, MonadExcept.tryCatch,
      M.tryCatch, callAxios, h, logAt, pure, M.pure, throw, throwThe, MonadExcept.throw,
      M.throw, liftExcept, errResponse, hr]

theorem postRequest_reject_none (c : Ctx) (url : String) (payload : Json) (w : World)
    (e : JsError)
    (h : c.axios w.requests ⟨.POST, url, some payload, c.auth⟩ = .reject e)
    (hr : e.response = none) :
    postRequest c url payload w =
      (.error (if c.logger then typeErrorRead "undefined" "status" else e),
        ⟨w.requests ++ [⟨.POST, url, some payload, c.auth⟩],
          w.logs ++ (if c.logger then
            [⟨.debug, "[Request] [POST] " ++ url ++ "\n Request body: "
              ++ stringifyText payload 2⟩] else [])⟩) := by
  cases hl : c.logger <;>
    simp [postRequest, hl, bind, M.bind, tryCatch, tryCatchThe, MonadExcept.tryCatch,
      M.tryCatch, callAxios, h, logAt, pure, M.pure, throw, throwThe, MonadExcept.throw,
      M.throw, liftExcept, errResponse, hr]

theorem putRequest_resolve (c : Ctx) (url : String) (payload : Json) (w : World)
    (res : Response)
    (h : c.axios w.requests ⟨.PUT, url, some payload, c.auth⟩ = .resolve res) :
    putRequest c url payload w =
      (.ok res.data, ⟨w.requests ++ [⟨.PUT, url, some payload, c.auth⟩],
        w.logs ++ (if c.logger then
          [⟨.debug, "[Request] [PUT] " ++ url ++ "\n Request body: " ++ stringifyText payload 2⟩,
            ⟨.debug, "[Response] [PUT] " ++ url ++ " \n Status code: " ++ toString res.status
              ++ " \nResponse body: " ++ stringifyText res.data 2⟩] else [])⟩) := by
  cases hl : c.logger <;>
    simp [putRequest, hl, bind, M.bind, tryCatch, tryCatchThe, MonadExcept.tryCatch,
      M.tryCatch, callAxios, h, logAt, pure, M.pure]

theorem putRequest_reject_some (c : Ctx) (url : String) (payload : Json) (w : World)
    (e : JsError) (r : Response)
    (h : c.axios w.requests ⟨.PUT, url, some payload, c.auth⟩ = .reject e)
    (hr : e.response = some r) :
    putRequest c url payload w =
      (.error e, ⟨w.requests ++ [⟨.PUT, url, some payload, c.auth⟩],
        w.logs ++ (if c.logger then
          [⟨.debug, "[Request] [PUT] " ++ url ++ "\n Request body: " ++ stringifyText payload 2⟩,
            ⟨.error, failureText "PUT" url r⟩] else [])⟩) := by
  cases hl : c.logger <;>
    simp [putRequest, hl, bind, M.bind, tryCatch, tryCatchThe, MonadExcept.tryCatch,
      M.tryCatch, callAxios, h, logAt, pure, M.pure, throw, throwThe, MonadExcept.throw,
      M.throw, liftExcept, errResponse, hr]

theorem putRequest_reject_none (c : Ctx) (url : String) (payload : Json) (w : World)
    (e : JsError)
    (h : c.axios w.requests ⟨.PUT, url, some payload, c.auth⟩ = .reject e)
    (hr : e.response = none) :
    putRequest c url payload w =
      (.error (if c.logger then typeErrorRead "undefined" "status" else e),
        ⟨w.requests ++ [⟨.PUT, url, some payload, c.auth⟩],
          w.logs ++ (if c.logger then
            [⟨.debug, "[Request] [PUT] " ++ url ++ "\n Request body: "
              ++ stringifyText payload 2⟩] else [])⟩) := by
  cases hl : c.logger <;>
    simp [putRequest, hl, bind, M.bind, tryCatch, tryCatchThe, MonadExcept.tryCatch,
      M.tryCatch, callAxios, h, logAt, pure, M.pure, throw, throwThe, MonadExcept.throw,
      M.throw, liftExcept, errResponse, hr]

theorem deleteRequest_resolve (c : Ctx) (url : String) (w : World) (res : Response)
    (h : c.axios w.requests ⟨.DELETE, url, none, c.auth⟩ = .resolve res) :
    deleteRequest c url w = (.ok res.data, ⟨w.requests ++ [⟨.DELETE, url, none, c.auth⟩],
      w.logs ++ (if c.logger then [⟨.debug, "[Request] [DELETE] " ++ url⟩,
        ⟨.debug, "[Response] [DELETE] " ++ url ++ " \n Status code: " ++ toString res.status
          ++ " \nResponse body: " ++ stringifyText res.data 2⟩] else [])⟩) := by
  cases hl : c.logger <;>
    simp [deleteRequest, hl, bind, M.bind, tryCatch, tryCatchThe, MonadExcept.tryCatch,
      M.tryCatch, callAxios, h, logAt, pure, M.pure]

theorem deleteRequest_reject_some (c : Ctx) (url : String) (w : World) (e : JsError)
    (r : Response) (h : c.axios w.requests ⟨.DELETE, url, none, c.auth⟩ = .reject e)
    (hr : e.response = some r) :
    deleteRequest c url w = (.error e, ⟨w.requests ++ [⟨.DELETE, url, none, c.auth⟩],
      w.logs ++ (if c.logger then [⟨.debug, "[Request] [DELETE] " ++ url⟩,
        ⟨.error, failureText "DELETE" url r⟩] else [])⟩) := by
  cases hl : c.logger <;>
    simp [deleteRequest, hl, bind, M.bind, tryCatch, tryCatchThe, MonadExcept.tryCatch,
      M.tryCatch, callAxios, h, logAt, pure, M.pure, throw, throwThe, MonadExcept.throw,
      M.throw, liftExcept, errResponse, hr]

theorem deleteRequest_reject_none (c : Ctx) (url : String) (w : World) (e : JsError)
    (h : c.axios w.requests ⟨.DELETE, url, none, c.auth⟩ = .reject e)
    (hr : e.response = none) :
    deleteRequest c url w =
      (.error (if c.logger then typeErrorRead "undefined" "status" else e),
        ⟨w.requests ++ [⟨.DELETE, url, none, c.auth⟩],
          w.logs ++ (if c.logger then [⟨.debug, "[Request] [DELETE] " ++ url⟩] else [])⟩) := by
  cases hl : c.logger <;>
    simp [deleteRequest, hl, bind, M.bind, tryCatch, tryCatchThe, MonadExcept.tryCatch,
      M.tryCatch, callAxios, h, logAt, pure, M.pure, throw, throwThe, MonadExcept.throw,
      M.throw, liftExcept, errResponse, hr]

/-! ## The four verbs together -/

theorem executor_resolve (c : Ctx) (verb : Verb) (url : String) (payload : Json) (w : World)
    (res : Response) (h : c.axios w.requests (requestOf c verb url payload) = .resolve res) :
    ∃ logs, executor c verb url payload w =
      (.ok res.data, ⟨w.requests ++ [requestOf c verb url payload], logs⟩) := by
  cases verb
  · exact ⟨_, getRequest_resolve c url w res h⟩
  · exact ⟨_, postRequest_resolve c url payload w res h⟩
  · exact ⟨_, putRequest_resolve c url payload w res h⟩
  · exact ⟨_, deleteRequest_resolve c url w res h⟩

theorem executor_reject_some (c : Ctx) (verb : Verb) (url : String) (payload : Json)
    (w : World) (e : JsError) (r : Response)
    (h : c.axios w.requests (requestOf c verb url payload) = .reject e)
    (hr : e.response = some r) :
    ∃ logs, executor c verb url payload w =
      (.error e, ⟨w.requests ++ [requestOf c verb url payload], logs⟩) := by
  cases verb
  · exact ⟨_, getRequest_reject_some c url w e r h hr⟩
  · exact ⟨_, postRequest_reject_some c url payload w e r h hr⟩
  · exact ⟨_, putRequest_reject_some c url payload w e r h hr⟩
  · exact ⟨_, deleteRequest_reject_some c url w e r h hr⟩

theorem executor_reject_none (c : Ctx) (verb : Verb) (url : String) (payload : Json)
    (w : World) (e : JsError)
    (h : c.axios w.requests (requestOf c verb url payload) = .reject e)
    (hr : e.response = none) :
    ∃ logs, executor c verb url payload w =
      (.error (if c.logger then typeErrorRead "undefined" "status" else e),
        ⟨w.requests ++ [requestOf c verb url payload], logs⟩) := by
  cases verb
  · exact ⟨_, getRequest_reject_none c url w e h hr⟩
  · exact ⟨_, postRequest_reject_none c url payload w e h hr⟩
  · exact ⟨_, putRequest_reject_none c url payload w e h hr⟩
  · exact ⟨_, deleteRequest_reject_none c url w e h hr⟩

theorem executor_requests (c : Ctx) (verb : Verb) (url : String) (payload : Json)
    (w : World) :
    (executor c verb url payload w).2.requests
      = w.requests ++ [requestOf c verb url payload] := by
  cases h : c.axios w.requests (requestOf c verb url payload) with
  | resolve res =>
    obtain ⟨logs, hrun⟩ := executor_resolve c verb url payload w res h
    rw [hrun]
  | reject e =>
    cases hr : e.response with
    | none =>
      obtain ⟨logs, hrun⟩ := executor_reject_none c verb url payload w e h hr
      rw [hrun]
    | some r =>
      obtain ⟨logs, hrun⟩ := executor_reject_some c verb url payload w e r h hr
      rw [hrun]

/-! ## The not-found adapter, case by case -/

theorem returnNullFor404_ok (f : M Json) (w w1 : World) (v : Json)
    (h : f w = (.ok v, w1)) : returnNullFor404 f w = (.ok v, w1) := by
  simp [returnNullFor404, bind, M.bind, tryCatch, tryCatchThe, MonadExcept.tryCatch,
    M.tryCatch, h, pure, M.pure]

theorem returnNullFor404_404 (f : M Json) (w w1 : World) (e : JsError) (r : Response)
    (h : f w = (.error e, w1)) (hr : e.response = some r) (hs : r.status = 404) :
    returnNullFor404 f w = (.ok .null, w1) := by
  simp [returnNullFor404, bind, M.bind, tryCatch, tryCatchThe, MonadExcept.tryCatch,
    M.tryCatch, h, pure, M.pure, liftExcept, errResponse, hr, hs]

theorem returnNullFor404_other (f : M Json) (w w1 : World) (e : JsError) (r : Response)
    (h : f w = (.error e, w1)) (hr : e.response = some r) (hs : r.status ≠ 404) :
    returnNullFor404 f w = (.error e, w1) := by
  simp [returnNullFor404, bind, M.bind, tryCatch, tryCatchThe, MonadExcept.tryCatch,
    M.tryCatch, h, pure, M.pure, liftExcept, errResponse, hr, hs, throw, throwThe,
    MonadExcept.throw, M.throw]

theorem returnNullFor404_no_response (f : M Json) (w w1 : World) (e : JsError)
    (h : f w = (.error e, w1)) (hr : e.response = none) :
    returnNullFor404 f w = (.error (typeErrorRead "undefined" "status"), w1) := by
  simp [returnNullFor404, bind, M.bind, tryCatch, tryCatchThe, MonadExcept.tryCatch,
    M.tryCatch, h, pure, M.pure, liftExcept, errResponse, hr, throw, throwThe,
    MonadExcept.throw, M.throw]

/-! ## Single-entity lookups -/

theorem returnNullFor404_world (f : M Json) (w : World) :
    (returnNullFor404 f w).2 = (f w).2 := by
  rcases hf : f w with ⟨r, w1⟩
  cases r with
  | ok v => rw [returnNullFor404_ok f w w1 v hf]
  | error e =>
    cases hr : e.response with
    | none => rw [returnNullFor404_no_response f w w1 e hf hr]
    | some r =>
      by_cases hs : r.status = 404
      · rw [returnNullFor404_404 f w w1 e r hf hr hs]
      · rw [returnNullFor404_other f w w1 e r hf hr hs]

theorem Lookup.run_eq (c : Ctx) (l : Lookup) (id : Json) :
    Lookup.run c l id = returnNullFor404 (getRequest c (Lookup.url c l id)) := by
  cases l <;> rfl

/-- C1: each of the six single-entity lookups makes one fetch of its address; when the
transport resolves, the lookup resolves with the response body; when the transport rejects
with a response of status 404, the lookup resolves with `null`; when it rejects with a
response of any other status, the lookup rejects with that same error, whose response has
that status. This holds with and without a logger. -/
theorem lookup_resolves_null_on_404 (c : Ctx) (l : Lookup) (id : Json) (w : World) :
    (Lookup.run c l id w).2.requests
      = w.requests ++ [⟨.GET, Lookup.url c l id, none, c.auth⟩] ∧
    (∀ res, c.axios w.requests ⟨.GET, Lookup.url c l id, none, c.auth⟩ = .resolve res →
      (Lookup.run c l id w).1 = .ok res.data) ∧
    (∀ e r, c.axios w.requests ⟨.GET, Lookup.url c l id, none, c.auth⟩ = .reject e →
      e.response = some r → r.status = 404 → (Lookup.run c l id w).1 = .ok .null) ∧
    (∀ e r, c.axios w.requests ⟨.GET, Lookup.url c l id, none, c.auth⟩ = .reject e →
      e.response = some r → r.status ≠ 404 →
      (Lookup.run c l id w).1 = .error e ∧ e.response.map Response.status = some r.status) := by
  refine ⟨?_, ?_, ?_, ?_⟩
  · rw [Lookup.run_eq, returnNullFor404_world]
    exact executor_requests c .GET _ .undefined w
  · intro res h
    rw [Lookup.run_eq, returnNullFor404_ok _ w _ _ (getRequest_resolve c _ w res h)]
  · intro e r h hr hs
    rw [Lookup.run_eq, returnNullFor404_404 _ w _ e r (getRequest_reject_some c _ w e r h hr) hr hs]
  · intro e r h hr hs
    rw [Lookup.run_eq,
      returnNullFor404_other _ w _ e r (getRequest_reject_some c _ w e r h hr) hr hs]
    simp [hr]

/-- C1, scenario 1: `getConnection("c1")` against a backend that answers 404 resolves with
`null`. -/
theorem lookup_resolves_null_on_404_witness :
    rejectingBackend (notFoundError .null) emptyWorld.requests
        ⟨.GET, "http://vcx/api/connections/c1", none, .null⟩
      = .reject (notFoundError .null) ∧
    (notFoundError .null).response = some ⟨404, .null⟩ ∧
    (getConnection (demoCtx (rejectingBackend (notFoundError .null)) false) (.str "c1")
      emptyWorld).1 = .ok .null :=
  ⟨rfl, rfl,
    (lookup_resolves_null_on_404 (demoCtx (rejectingBackend (notFoundError .null)) false)
      .getConnection (.str "c1") emptyWorld).2.2.1 (notFoundError .null) ⟨404, .null⟩ rfl rfl
      rfl⟩

/-! ## The not-found adapter and a failure without a response -/

/-- C2: the adapter given an operation that rejects with a network error (an error without
`response`) does not reject with that error: reading `err.response.status` throws, and the
adapter rejects with the `TypeError` of that read. The same happens to `getConnection("c1")`
when the network is down and no logger is configured. -/
theorem returnNullFor404_replaces_network_error :
    returnNullFor404 (M.throw networkError) emptyWorld
      = (.error (typeErrorRead "undefined" "status"), emptyWorld) ∧
    (getConnection (demoCtx (rejectingBackend networkError) false) (.str "c1") emptyWorld).1
      = .error (typeErrorRead "undefined" "status") ∧
    typeErrorRead "undefined" "status" ≠ networkError :=
  ⟨rfl, rfl, by simp [typeErrorRead, networkError]⟩

/-! ## The request executor -/

/-- C3: each of the four verbs gives the transport exactly one request, the one with the
verb, the address, the payload (for `POST` and `PUT`) and the configured `auth`; and when
the transport resolves with a response, the executor resolves with the body of that
response as it is. This holds with and without a logger. -/
theorem executor_one_request_exact_body (c : Ctx) (verb : Verb) (url : String)
    (payload : Json) (w : World) :
    (executor c verb url payload w).2.requests
      = w.requests ++ [requestOf c verb url payload] ∧
    ∀ res, c.axios w.requests (requestOf c verb url payload) = .resolve res →
      (executor c verb url payload w).1 = .ok res.data := by
  refine ⟨executor_requests c verb url payload w, ?_⟩
  intro res h
  obtain ⟨logs, hrun⟩ := executor_resolve c verb url payload w res h
  rw [hrun]

/-- C3 at a concrete call: a `PUT` against a backend that answers with a body. -/
theorem executor_one_request_exact_body_witness :
    resolvingBackend (.obj [("ok", .bool true)]) emptyWorld.requests
        (requestOf (demoCtx (resolvingBackend (.obj [("ok", .bool true)])) true) .PUT
          "http://vcx/api/connections/c1/messages" (.obj [("uids", .arr [.str "u1"])]))
      = .resolve ⟨200, .obj [("ok", .bool true)]⟩ ∧
    (executor (demoCtx (resolvingBackend (.obj [("ok", .bool true)])) true) .PUT
      "http://vcx/api/connections/c1/messages" (.obj [("uids", .arr [.str "u1"])])
      emptyWorld).1 = .ok (.obj [("ok", .bool true)]) :=
  ⟨rfl, (executor_one_request_exact_body
    (demoCtx (resolvingBackend (.obj [("ok", .bool true)])) true) .PUT
    "http://vcx/api/connections/c1/messages" (.obj [("uids", .arr [.str "u1"])])
    emptyWorld).2 ⟨200, .obj [("ok", .bool true)]⟩ rfl⟩

/-- C4: with a logger configured, each of the four verbs given a request that fails with a
network error (an error without `response`) does not reject with that error: building the
log text reads `err.response.status`, which throws, and the executor rejects with the
`TypeError` of that read. -/
theorem executor_replaces_network_error_when_logging (verb : Verb) :
    (executor (demoCtx (rejectingBackend networkError) true) verb "http://vcx/api/proofs"
      .null emptyWorld).1 = .error (typeErrorRead "undefined" "status") ∧
    typeErrorRead "undefined" "status" ≠ networkError := by
  refine ⟨?_, by simp [typeErrorRead, networkError]⟩
  cases verb <;> rfl

/-! ## Severity of the record of a failed call -/

/-- C5, counterexample for `POST`: with a logger configured, `postRequest` against a backend that
answers 404 gives the logger no record at warning severity and one at error severity. -/
theorem postRequest_404_logged_at_error :
    (notFoundError .null).response = some ⟨404, .null⟩ ∧
    countLevel .warn (emitted emptyWorld
      (executor (demoCtx (rejectingBackend (notFoundError .null)) true) .POST
        "http://vcx/api/connections/c1" .undefined emptyWorld).2) = 0 ∧
    countLevel .error (emitted emptyWorld
      (executor (demoCtx (rejectingBackend (notFoundError .null)) true) .POST
        "http://vcx/api/connections/c1" .undefined emptyWorld).2) = 1 :=
  ⟨rfl, by decide, by decide⟩

/-- C5 as amended: with a logger configured, a call that fails with a response of status
`s` gives the logger two records, the debug record before the call and one record after
it. For `getRequest` the record after the call is at warning severity when `s = 404` and at
error severity otherwise; for `postRequest`, `putRequest` and `deleteRequest` it is at
error severity for every `s`, 404 included. -/
theorem failure_record_severity (c : Ctx) (verb : Verb) (url : String) (payload : Json)
    (w : World) (e : JsError) (r : Response) (hl : c.logger = true)
    (h : c.axios w.requests (requestOf c verb url payload) = .reject e)
    (hr : e.response = some r) :
    (∃ before after, emitted w (executor c verb url payload w).2
      = [⟨.debug, before⟩,
          ⟨if verb = .GET ∧ r.status = 404 then .warn else .error, after⟩]) ∧
    countLevel .warn (emitted w (executor c verb url payload w).2)
      = (if verb = .GET ∧ r.status = 404 then 1 else 0) ∧
    countLevel .error (emitted w (executor c verb url payload w).2)
      = (if verb = .GET ∧ r.status = 404 then 0 else 1) := by
  cases verb
  · have hrun := getRequest_reject_some c url w e r h hr
    by_cases hs : r.status = 404 <;>
      simp [executor, hrun, hl, emitted, countLevel, getFailureLevel, hs]
  · have hrun := postRequest_reject_some c url payload w e r h hr
    simp [executor, hrun, hl, emitted, countLevel]
  · have hrun := putRequest_reject_some c url payload w e r h hr
    simp [executor, hrun, hl, emitted, countLevel]
  · have hrun := deleteRequest_reject_some c url w e r h hr
    simp [executor, hrun, hl, emitted, countLevel]

/-- C5 as amended, at concrete calls: a fetch answered 404 is logged at warning severity. -/
theorem failure_record_severity_witness :
    (demoCtx (rejectingBackend (notFoundError .null)) true).logger = true ∧
    countLevel .warn (emitted emptyWorld
      (executor (demoCtx (rejectingBackend (notFoundError .null)) true) .GET
        "http://vcx/api/connections/c1" .undefined emptyWorld).2) = 1 :=
  ⟨rfl, (failure_record_severity (demoCtx (rejectingBackend (notFoundError .null)) true) .GET
    "http://vcx/api/connections/c1" .undefined emptyWorld (notFoundError .null) ⟨404, .null⟩
    rfl rfl rfl).2.1⟩

/-! ## Lookup of connections by peer identifier -/

theorem getRequest_requests (c : Ctx) (url : String) (w : World) :
    (getRequest c url w).2.requests = w.requests ++ [⟨.GET, url, none, c.auth⟩] :=
  executor_requests c .GET url .undefined w

theorem getConnectionIdByTheirPwDid_list (c : Ctx) (theirPwDid : Json) (w : World)
    (res : Response) (L : List Json)
    (h : c.axios w.requests
      ⟨.GET, toStr c.baseUrl ++ "/api/connections" ++ ("?theirPwDid=" ++ toStr theirPwDid),
        none, c.auth⟩ = .resolve res)
    (hL : res.data = .arr L) :
    getConnectionIdByTheirPwDid c theirPwDid w =
      (if 1 < L.length then
          .error (mkError ("More than 1 connection with theirPwDid=" ++ toStr theirPwDid
            ++ " found. This is VCXS server bug."))
        else .ok (.arr L),
        (getRequest c
          (toStr c.baseUrl ++ "/api/connections" ++ ("?theirPwDid=" ++ toStr theirPwDid))
          w).2) := by
  have hrun := getRequest_resolve c _ w res h
  by_cases hlen : 1 < L.length <;>
    simp [getConnectionIdByTheirPwDid, bind, M.bind, hrun, hL, liftExcept, getProp, jsGt,
      toNumber, pure, M.pure, throw, throwThe, MonadExcept.throw, M.throw, hlen]

/-- C6: when the backend answers the fetch of
`baseUrl/api/connections?theirPwDid=p` with a list `L`: if `L` has two or more records,
`getConnectionIdByTheirPwDid(p)` rejects with an `Error` whose message starts with
`More than 1 connection`; if `L` has no record or one, it resolves with `L` as it is. -/
theorem getConnectionIdByTheirPwDid_unique (c : Ctx) (theirPwDid : Json) (w : World)
    (res : Response) (L : List Json)
    (h : c.axios w.requests
      ⟨.GET, toStr c.baseUrl ++ "/api/connections" ++ ("?theirPwDid=" ++ toStr theirPwDid),
        none, c.auth⟩ = .resolve res)
    (hL : res.data = .arr L) :
    (2 ≤ L.length → ∃ rest,
      (getConnectionIdByTheirPwDid c theirPwDid w).1
        = .error (mkError ("More than 1 connection" ++ rest))) ∧
    (L.length ≤ 1 → (getConnectionIdByTheirPwDid c theirPwDid w).1 = .ok (.arr L)) := by
  rw [getConnectionIdByTheirPwDid_list c theirPwDid w res L h hL]
  constructor
  · intro h2
    refine ⟨" with theirPwDid=" ++ toStr theirPwDid ++ " found. This is VCXS server bug.", ?_⟩
    have : 1 < L.length := h2
    simp only [this, if_true]
    simp only [← String.append_assoc]
    rfl
  · intro h1
    have : ¬ 1 < L.length := by omega
    simp [this]

/-- C6, scenario 2: `getConnectionIdByTheirPwDid("did:1")` against a backend that returns
two records rejects with an error whose message starts with `More than 1 connection`. -/
theorem getConnectionIdByTheirPwDid_unique_witness :
    2 ≤ [Json.obj [("id", .str "c1")], Json.obj [("id", .str "c2")]].length ∧
    ∃ rest,
      (getConnectionIdByTheirPwDid
        (demoCtx (connectionsBackend [.obj [("id", .str "c1")], .obj [("id", .str "c2")]]
          .null) false) (.str "did:1") emptyWorld).1
        = .error (mkError ("More than 1 connection" ++ rest)) :=
  ⟨by decide,
    (getConnectionIdByTheirPwDid_unique
      (demoCtx (connectionsBackend [.obj [("id", .str "c1")], .obj [("id", .str "c2")]]
        .null) false) (.str "did:1") emptyWorld
      ⟨200, .arr [.obj [("id", .str "c1")], .obj [("id", .str "c2")]]⟩ _ rfl rfl).1
      (by decide)⟩

/-! ## Sending a credential by peer identifier -/

theorem getProp_arr_length (xs : List Json) :
    getProp (.arr xs) "length" = .ok (.num xs.length) := by
  simp [getProp]

theorem sendCredentialByConnection_requests (c : Ctx)
    (credentialId connectionId credDefId values credentialName : Json) (w : World) :
    (sendCredentialByConnection c credentialId connectionId credDefId values credentialName
      w).2.requests
      = w.requests ++ [⟨.POST, toStr c.baseUrl ++ "/api/connections/" ++ toStr connectionId
          ++ "/credentials/" ++ toStr credentialId,
        some (.obj [("credDefId", credDefId), ("values", values),
          ("credentialName", credentialName)]), c.auth⟩] := by
  have hreq := executor_requests c .POST
    (toStr c.baseUrl ++ "/api/connections/" ++ toStr connectionId ++ "/credentials/"
      ++ toStr credentialId)
    (.obj [("credDefId", credDefId), ("values", values), ("credentialName", credentialName)]) w
  simp only [executor, requestOf] at hreq
  simp only [sendCredentialByConnection, bind, M.bind]
  split
  · rename_i a w1 heq
    rw [heq] at hreq
    cases hp : getProp a "id" <;> simpa [liftExcept, M.pure, M.throw] using hreq
  · rename_i e w1 heq
    rw [heq] at hreq
    simpa using hreq

theorem sendCredentialByConnection_resolve (c : Ctx)
    (credentialId connectionId credDefId values credentialName : Json) (w : World)
    (res : Response)
    (h : c.axios w.requests ⟨.POST, toStr c.baseUrl ++ "/api/connections/"
          ++ toStr connectionId ++ "/credentials/" ++ toStr credentialId,
        some (.obj [("credDefId", credDefId), ("values", values),
          ("credentialName", credentialName)]), c.auth⟩ = .resolve res) :
    (sendCredentialByConnection c credentialId connectionId credDefId values credentialName
      w).1 = getProp res.data "id" := by
  have hrun := postRequest_resolve c _ _ w res h
  simp only [sendCredentialByConnection, bind, M.bind, hrun]
  cases hp : getProp res.data "id" <;> simp [liftExcept, M.pure, M.throw]

/-- C7: `sendCredentialByTheirPwDid` after the lookup of the connections by the peer
identifier has been answered with a list. (a) The empty list: the call rejects with the
error `No connection was found by theirPwDid=...` and the fetch is its only request. (b) A
list of one connection `conn`: the call is `sendCredentialByConnection` with `conn.id` as
connection identifier, run after the fetch. (c) A list of two or more: the call rejects
with the error of the lookup and the fetch is its only request. And
`sendCredentialByConnection` makes one `POST` to
`baseUrl/api/connections/connectionId/credentials/credentialId` with the body of the three
fields `credDefId`, `values`, `credentialName`, and resolves with the field `id` of the
response body. -/
theorem sendCredentialByTheirPwDid_dispatch (c : Ctx)
    (credentialId theirPwDid credDefId values credentialName : Json) (w : World)
    (res : Response)
    (h : c.axios w.requests
      ⟨.GET, toStr c.baseUrl ++ "/api/connections" ++ ("?theirPwDid=" ++ toStr theirPwDid),
        none, c.auth⟩ = .resolve res) :
    (res.data = .arr [] →
      (sendCredentialByTheirPwDid c credentialId theirPwDid credDefId values credentialName
        w).1 = .error (mkError ("No connection was found by theirPwDid=" ++ toStr theirPwDid))
      ∧ (sendCredentialByTheirPwDid c credentialId theirPwDid credDefId values credentialName
        w).2.requests = w.requests ++ [⟨.GET, toStr c.baseUrl ++ "/api/connections"
          ++ ("?theirPwDid=" ++ toStr theirPwDid), none, c.auth⟩]) ∧
    (∀ conn, res.data = .arr [conn] →
      sendCredentialByTheirPwDid c credentialId theirPwDid credDefId values credentialName w
        = match getProp conn "id" with
          | .ok connectionId =>
            sendCredentialByConnection c credentialId connectionId credDefId values
              credentialName
              (getRequest c (toStr c.baseUrl ++ "/api/connections"
                ++ ("?theirPwDid=" ++ toStr theirPwDid)) w).2
          | .error err =>
            (.error err, (getRequest c (toStr c.baseUrl ++ "/api/connections"
                ++ ("?theirPwDid=" ++ toStr theirPwDid)) w).2)) ∧
    (∀ c1 c2 rest, res.data = .arr (c1 :: c2 :: rest) →
      (sendCredentialByTheirPwDid c credentialId theirPwDid credDefId values credentialName
        w).1 = .error (mkError ("More than 1 connection with theirPwDid=" ++ toStr theirPwDid
          ++ " found. This is VCXS server bug."))
      ∧ (sendCredentialByTheirPwDid c credentialId theirPwDid credDefId values credentialName
        w).2.requests = w.requests ++ [⟨.GET, toStr c.baseUrl ++ "/api/connections"
          ++ ("?theirPwDid=" ++ toStr theirPwDid), none, c.auth⟩]) ∧
    (∀ connectionId w1,
      (sendCredentialByConnection c credentialId connectionId credDefId values credentialName
        w1).2.requests
        = w1.requests ++ [⟨.POST, toStr c.baseUrl ++ "/api/connections/"
            ++ toStr connectionId ++ "/credentials/" ++ toStr credentialId,
          some (.obj [("credDefId", credDefId), ("values", values),
            ("credentialName", credentialName)]), c.auth⟩] ∧
      ∀ res2, c.axios w1.requests ⟨.POST, toStr c.baseUrl ++ "/api/connections/"
            ++ toStr connectionId ++ "/credentials/" ++ toStr credentialId,
          some (.obj [("credDefId", credDefId), ("values", values),
            ("credentialName", credentialName)]), c.auth⟩ = .resolve res2 →
        (sendCredentialByConnection c credentialId connectionId credDefId values
          credentialName w1).1 = getProp res2.data "id") := by
  refine ⟨?_, ?_, ?_, ?_⟩
  · intro hL
    have hrun := getConnectionIdByTheirPwDid_list c theirPwDid w res [] h hL
    simp [sendCredentialByTheirPwDid, bind, M.bind, hrun, truthy, liftExcept, getProp, jsLt,
      toNumber, pure, M.pure, throw, throwThe, MonadExcept.throw, M.throw,
      getRequest_requests]
  · intro conn hL
    have hrun := getConnectionIdByTheirPwDid_list c theirPwDid w res [conn] h hL
    cases hp : getProp conn "id" <;>
      simp [sendCredentialByTheirPwDid, bind, M.bind, hrun, truthy, liftExcept,
        getProp_arr_length, jsLt, toNumber, pure, M.pure, throw, throwThe, MonadExcept.throw,
        M.throw, getIndex, hp]
  · intro c1 c2 rest hL
    have hrun := getConnectionIdByTheirPwDid_list c theirPwDid w res (c1 :: c2 :: rest) h hL
    simp [sendCredentialByTheirPwDid, bind, M.bind, hrun, getRequest_requests]
  · intro connectionId w1
    exact ⟨sendCredentialByConnection_requests c credentialId connectionId credDefId values
        credentialName w1,
      fun res2 h2 => sendCredentialByConnection_resolve c credentialId connectionId credDefId
        values credentialName w1 res2 h2⟩

/-- C7 at a concrete call: one connection `c9` is found, the credential goes to it by one
`POST` after the fetch, and the call resolves with the `id` of the response. -/
theorem sendCredentialByTheirPwDid_dispatch_witness :
    sendCredentialByTheirPwDid
        (demoCtx (connectionsBackend [.obj [("id", .str "c9")]] (.obj [("id", .str "cred-1")]))
          false)
        (.str "k1") (.str "did:1") (.str "cd1") (.obj [("age", .str "30")]) (.str "Id")
        emptyWorld
      = (.ok (.str "cred-1"),
          ⟨[⟨.GET, "http://vcx/api/connections?theirPwDid=did:1", none, .null⟩,
            ⟨.POST, "http://vcx/api/connections/c9/credentials/k1",
              some (.obj [("credDefId", .str "cd1"), ("values", .obj [("age", .str "30")]),
                ("credentialName", .str "Id")]), .null⟩], []⟩) :=
  ((sendCredentialByTheirPwDid_dispatch
    (demoCtx (connectionsBackend [.obj [("id", .str "c9")]] (.obj [("id", .str "cred-1")]))
      false)
    (.str "k1") (.str "did:1") (.str "cd1") (.obj [("age", .str "30")]) (.str "Id")
    emptyWorld ⟨200, .arr [.obj [("id", .str "c9")]]⟩ rfl).2.1
    (.obj [("id", .str "c9")]) rfl).trans rfl

/-! ## Creating and loading a schema -/

/-- C8: `createSchema` and `loadSchema` each make one `POST` to
`baseUrl/api/schemas/schemaId`; the payload of `createSchema` is the object of exactly the
fields `schemaName`, `schemaVersion`, `attributes` and `method` with value `create`; the
payload of `loadSchema` is the object of exactly the fields `attributes`, `schemaLedgerId`
and `method` with value `load`; their `method` fields differ and no payload of one equals a
payload of the other. -/
theorem createSchema_loadSchema_payloads (c : Ctx)
    (schemaId schemaName schemaVersion attributes : Json)
    (loadedId loadedAttributes schemaLedgerId : Json) (w : World) :
    (createSchema c schemaId schemaName schemaVersion attributes w).2.requests
      = w.requests ++ [⟨.POST, toStr c.baseUrl ++ "/api/schemas/" ++ toStr schemaId,
          some (.obj [("schemaName", schemaName), ("schemaVersion", schemaVersion),
            ("attributes", attributes), ("method", .str "create")]), c.auth⟩] ∧
    (loadSchema c loadedId loadedAttributes schemaLedgerId w).2.requests
      = w.requests ++ [⟨.POST, toStr c.baseUrl ++ "/api/schemas/" ++ toStr loadedId,
          some (.obj [("attributes", loadedAttributes), ("schemaLedgerId", schemaLedgerId),
            ("method", .str "load")]), c.auth⟩] ∧
    getProp (createSchemaPayload schemaName schemaVersion attributes) "method"
      = .ok (.str "create") ∧
    getProp (loadSchemaPayload loadedAttributes schemaLedgerId) "method" = .ok (.str "load") ∧
    createSchemaPayload schemaName schemaVersion attributes
      ≠ loadSchemaPayload loadedAttributes schemaLedgerId := by
  refine ⟨?_, ?_, rfl, rfl, ?_⟩
  · exact executor_requests c .POST _ _ w
  · exact executor_requests c .POST _ _ w
  · simp [createSchemaPayload, loadSchemaPayload]

/-! ## The client object -/

theorem objectKeys_clientObject (c : Ctx) :
    objectKeys (clientObject c) =
      [ "createConnection", "getConnectionInvite", "getConnections", "getConnection",
        "deleteConnection", "createChallenge", "getSignedData", "submitChallengeSolution",
        "createSchema", "loadSchema", "getSchemaById", "getSchemaByLedgerId", "getSchemas",
        "deleteSchema", "createCredDef", "getCredDef", "getCredDefs", "deleteCredDef",
        "sendCredentialByConnection", "sendCredentialByTheirPwDid", "getCredentials",
        "getCredential", "deleteCredential", "sendProofRequest", "getProof", "getProofs",
        "deleteProof", "sendMessage", "getMessages", "updateMessages" ] := rfl

theorem clientProp_isSome_of_mem (client : List (String × JsFunction)) (name : String)
    (h : name ∈ objectKeys client) : (clientProp client name).isSome = true := by
  induction client with
  | nil => simp [objectKeys] at h
  | cons kv rest ih =>
    by_cases hk : kv.1 = name
    · simp [clientProp, List.find?, hk]
    · have hrest : name ∈ objectKeys rest := by
        simp only [objectKeys, List.map_cons, List.mem_cons] at h
        rcases h with h | h
        · exact absurd h.symm hk
        · exact h
      have := ih hrest
      simpa [clientProp, List.find?, hk] using this

theorem createVcxapiClient_ok (axios : Transport) (baseUrl auth : Json) (logger : Bool)
    (hnull : baseUrl ≠ .null) (hundef : baseUrl ≠ .undefined) :
    ∃ c : Ctx, createVcxapiClient axios baseUrl auth logger = .ok (clientObject c) := by
  cases baseUrl <;> first
    | exact absurd rfl hnull
    | exact absurd rfl hundef
    | exact ⟨_, rfl⟩

/-- C9, counterexample: the specification's surface has the lookup by peer identifier, and the object
that `createVcxapiClient` returns has no property `getConnectionIdByTheirPwDid`: calling
`getConnectionIdByTheirPwDid("did:1")` on a constructed client throws a `TypeError` and no
request is made. -/
theorem client_has_no_getConnectionIdByTheirPwDid :
    "getConnectionIdByTheirPwDid" ∈ specifiedSurface ∧
    ∃ client,
      createVcxapiClient (connectionsBackend [.obj [], .obj []] .null) (.str "http://vcx")
        .undefined false = .ok client ∧
      "getConnectionIdByTheirPwDid" ∉ objectKeys client ∧
      callMethod client "getConnectionIdByTheirPwDid" [.str "did:1"] emptyWorld
        = (.error (typeErrorCall "client.getConnectionIdByTheirPwDid"), emptyWorld) :=
  ⟨by decide, _, rfl, by decide, rfl⟩

/-- C9 as amended: for a base address that is neither `null` nor `undefined`,
`createVcxapiClient` returns an object whose properties are exactly the operations of the
specified surface other than `getConnectionIdByTheirPwDid`, each of them a function; among
the connection operations these are create, get invitation, list, get by id or null and
delete. -/
theorem client_surface_without_peer_lookup (axios : Transport) (baseUrl auth : Json)
    (logger : Bool) (hnull : baseUrl ≠ .null) (hundef : baseUrl ≠ .undefined) :
    ∃ client, createVcxapiClient axios baseUrl auth logger = .ok client ∧
      (objectKeys client).Perm
        (specifiedSurface.filter (fun name => name ≠ "getConnectionIdByTheirPwDid")) ∧
      (∀ name, name ∈ objectKeys client ↔
        (name ∈ specifiedSurface ∧ name ≠ "getConnectionIdByTheirPwDid")) ∧
      (∀ name ∈ objectKeys client, (clientProp client name).isSome = true) := by
  obtain ⟨c, hc⟩ := createVcxapiClient_ok axios baseUrl auth logger hnull hundef
  have hperm : (objectKeys (clientObject c)).Perm
      (specifiedSurface.filter (fun name => name ≠ "getConnectionIdByTheirPwDid")) := by
    rw [objectKeys_clientObject]
    decide
  refine ⟨clientObject c, hc, hperm, ?_, ?_⟩
  · intro name
    rw [hperm.mem_iff]
    simp [List.mem_filter]
  · intro name hname
    exact clientProp_isSome_of_mem _ name hname

/-- C9 as amended, at a concrete client: `getConnection` is a property of the client built
for the base address `http://vcx`. -/
theorem client_surface_without_peer_lookup_witness :
    Json.str "http://vcx" ≠ .null ∧ Json.str "http://vcx" ≠ .undefined ∧
    ∃ client, createVcxapiClient (rejectingBackend networkError) (.str "http://vcx") .undefined
        false = .ok client ∧
      (objectKeys client).Perm
        (specifiedSurface.filter (fun name => name ≠ "getConnectionIdByTheirPwDid")) ∧
      (∀ name, name ∈ objectKeys client ↔
        (name ∈ specifiedSurface ∧ name ≠ "getConnectionIdByTheirPwDid")) ∧
      (∀ name ∈ objectKeys client, (clientProp client name).isSome = true) :=
  ⟨nofun, nofun,
    client_surface_without_peer_lookup (rejectingBackend networkError) (.str "http://vcx")
      .undefined false nofun nofun⟩

/-! ## The query string of `getMessages` -/

theorem joinWith_cons_cons (sep a b : String) (rest : List String) :
    joinWith sep (a :: b :: rest) = a ++ sep ++ joinWith sep (b :: rest) := rfl

theorem joinWith_append (sep : String) (xs ys : List String) (hx : xs ≠ []) (hy : ys ≠ []) :
    joinWith sep (xs ++ ys) = joinWith sep xs ++ sep ++ joinWith sep ys := by
  induction xs with
  | nil => exact absurd rfl hx
  | cons a rest ih =>
    cases rest with
    | nil =>
      cases ys with
      | nil => exact absurd rfl hy
      | cons b ys => rfl
    | cons b rest =>
      have := ih (by simp)
      simp only [List.cons_append] at this ⊢
      rw [joinWith_cons_cons, joinWith_cons_cons, this]
      simp only [String.append_assoc]

theorem joinWith_length_pos (sep : String) (xs : List String) (hx : xs ≠ [])
    (hpos : ∀ s ∈ xs, 0 < s.length) : 0 < (joinWith sep xs).length := by
  cases xs with
  | nil => exact absurd rfl hx
  | cons a rest =>
    have ha : 0 < a.length := hpos a (by simp)
    cases rest with
    | nil => simpa [joinWith] using ha
    | cons b rest =>
      rw [joinWith_cons_cons]
      simp only [String.length_append]
      omega

theorem filterMap_bracketElement_str (key : String) (vs : List String) :
    (vs.map Json.str).filterMap (bracketElement key)
      = vs.map (fun v => strictUriEncode key ++ "[]=" ++ strictUriEncode v) := by
  induction vs with
  | nil => rfl
  | cons v rest ih => simp [bracketElement, ih, toStr]

theorem bracket_pair_length_pos (key : String) (vs : List String) :
    ∀ s ∈ vs.map (fun v => key ++ "[]=" ++ strictUriEncode v), 0 < s.length := by
  intro s hs
  simp only [List.mem_map] at hs
  obtain ⟨v, _, rfl⟩ := hs
  simp only [String.length_append]
  have : ("[]=" : String).length = 3 := by decide
  omega

theorem qsStringify_types_statuses (types statuses : List String) :
    qsStringify [("types", .arr (types.map .str)), ("statuses", .arr (statuses.map .str))]
      = joinWith "&" (statuses.map (fun v => "statuses[]=" ++ strictUriEncode v)
          ++ types.map (fun v => "types[]=" ++ strictUriEncode v)) := by
  have hsort : ([("types", Json.arr (types.map .str)),
      ("statuses", Json.arr (statuses.map .str))].foldr insertByKey [])
      = [("statuses", Json.arr (statuses.map .str)), ("types", Json.arr (types.map .str))] := by
    have hlt : ¬ ("types".data < "statuses".data) := by decide
    simp [insertByKey, hlt]
  have hs : strictUriEncode "statuses" = "statuses" := by decide
  have ht : strictUriEncode "types" = "types" := by decide
  have h1 : ("statuses" : String) ++ "[]=" = "statuses[]=" := by decide
  have h2 : ("types" : String) ++ "[]=" = "types[]=" := by decide
  simp only [qsStringify, hsort, List.map_cons, List.map_nil, stringifyKey,
    filterMap_bracketElement_str, hs, ht, h1, h2]
  by_cases hS : statuses = [] <;> by_cases hT : types = []
  · subst hS; subst hT; decide
  · subst hS
    have hpos := joinWith_length_pos "&"
      (types.map (fun v => "types[]=" ++ strictUriEncode v)) (by simpa using hT)
      (bracket_pair_length_pos "types" types)
    simp [joinWith, List.filter, hpos]
  · subst hT
    have hpos := joinWith_length_pos "&"
      (statuses.map (fun v => "statuses[]=" ++ strictUriEncode v)) (by simpa using hS)
      (bracket_pair_length_pos "statuses" statuses)
    simp [joinWith, List.filter, hpos]
  · have hposS := joinWith_length_pos "&"
      (statuses.map (fun v => "statuses[]=" ++ strictUriEncode v)) (by simpa using hS)
      (bracket_pair_length_pos "statuses" statuses)
    have hposT := joinWith_length_pos "&"
      (types.map (fun v => "types[]=" ++ strictUriEncode v)) (by simpa using hT)
      (bracket_pair_length_pos "types" types)
    rw [joinWith_append "&" _ _ (by simpa using hS) (by simpa using hT)]
    simp [joinWith, List.filter, hposS, hposT]

theorem encodeChars_unreserved (cs : List Char) (h : ∀ ch ∈ cs, isUnreserved ch = true) :
    (cs.map encodeChar).flatten = cs := by
  induction cs with
  | nil => rfl
  | cons ch rest ih =>
    have hch : isUnreserved ch = true := h ch (by simp)
    have hrest := ih (fun x hx => h x (by simp [hx]))
    simp [encodeChar, hch, hrest]

/-- C10, counterexample: the query string has not one pair `types[]=v` for each element `v`
of every list. For the list of the one element `undefined` the address ends in `messages?`
with no pair; for the list of the one element `null` it ends in the bare `types[]`, which is
no pair; and for the list of the one string `a b` the pair is `types[]=a%20b`, the value
percent-encoded and not as it is. -/
theorem getMessages_pairs_not_for_every_element :
    (getMessages (demoCtx (resolvingBackend (.arr [])) false) (.str "c1")
      (.arr [.undefined]) (.arr []) emptyWorld).2.requests
      = [⟨.GET, "http://vcx/api/connections/c1/messages?", none, .null⟩] ∧
    (getMessages (demoCtx (resolvingBackend (.arr [])) false) (.str "c1")
      (.arr [.null]) (.arr []) emptyWorld).2.requests
      = [⟨.GET, "http://vcx/api/connections/c1/messages?types[]", none, .null⟩] ∧
    (getMessages (demoCtx (resolvingBackend (.arr [])) false) (.str "c1")
      (.arr [.str "a b"]) (.arr []) emptyWorld).2.requests
      = [⟨.GET, "http://vcx/api/connections/c1/messages?types[]=a%20b", none, .null⟩] ∧
    "http://vcx/api/connections/c1/messages?types[]=a%20b"
      ≠ "http://vcx/api/connections/c1/messages?types[]=a b" :=
  ⟨rfl, rfl, rfl, by decide⟩

/-- C10 as amended: for lists of strings `types` and `statuses`, `getMessages` makes exactly
one fetch, of the address `baseUrl/api/connections/connectionId/messages?` followed by the pairs, joined
by `&`: one pair `statuses[]=v` for each element of `statuses`, in list order, then one pair
`types[]=v` for each element of `types`, in list order, and nothing else. In a pair the value
is percent-encoded, and a value of letters, digits, `-`, `_`, `.` and `~` is written as it
is. -/
theorem getMessages_bracket_query (c : Ctx) (connectionId : Json)
    (types statuses : List String) (w : World) :
    (getMessages c connectionId (.arr (types.map .str)) (.arr (statuses.map .str))
      w).2.requests
      = w.requests ++ [⟨.GET,
          toStr c.baseUrl ++ "/api/connections/" ++ toStr connectionId ++ "/messages?"
            ++ joinWith "&" (statuses.map (fun v => "statuses[]=" ++ strictUriEncode v)
              ++ types.map (fun v => "types[]=" ++ strictUriEncode v)),
          none, c.auth⟩] ∧
    ∀ v : String, (∀ ch ∈ v.data, isUnreserved ch = true) → strictUriEncode v = v := by
  constructor
  · rw [← qsStringify_types_statuses]
    exact getRequest_requests c _ w
  · intro v hv
    simp [strictUriEncode, encodeChars_unreserved v.data hv]

/-- C10 as amended, scenario 4: `getMessages("c1", ["a","b"], ["pending"])` requests
`.../api/connections/c1/messages?statuses[]=pending&types[]=a&types[]=b`. -/
theorem getMessages_bracket_query_witness :
    (getMessages (demoCtx (resolvingBackend (.arr [])) false) (.str "c1")
      (.arr [.str "a", .str "b"]) (.arr [.str "pending"]) emptyWorld).2.requests
      = [⟨.GET, "http://vcx/api/connections/c1/messages?statuses[]=pending&types[]=a&types[]=b",
          none, .null⟩] ∧
    (∀ ch ∈ "pending".data, isUnreserved ch = true) ∧ strictUriEncode "pending" = "pending" :=
  ⟨(getMessages_bracket_query (demoCtx (resolvingBackend (.arr [])) false) (.str "c1")
      ["a", "b"] ["pending"] emptyWorld).1.trans rfl,
    by decide,
    (getMessages_bracket_query (demoCtx (resolvingBackend (.arr [])) false) (.str "c1")
      ["a", "b"] ["pending"] emptyWorld).2 "pending" (by decide)⟩

end Vcxapi
